import Mathlib

/-!
Verification of the speed-test analysis repository's core subsystem:
the `Location` record with coordinate validation and haversine distance
(`src/location/location.py`), and the `KNearestNeighbours` model
(`src/k_nearest_neighbours/knn.py`) with its train/test split, fitting,
nearest-neighbour query, prediction and cross-validated evaluation.

Numeric values are modelled over `ℝ` (Python floats in exact real
arithmetic); hyperparameter `test_size` is modelled over `ℚ` since the
split-size computation is exact rational arithmetic on it.  The seeded
numpy permutation used by `train_test_split` is abstracted as an explicit
permutation argument `perm` (the library derives it deterministically from
`random_state`).  Fallible Python code (raising `TypeError`/`ValueError`)
is modelled with `Except`.
-/

/-- Python runtime values relevant to `Location.__init__`'s `isinstance`
checks: ints and floats are numeric, strings and `None` are not. -/
inductive PyVal where
  | int (n : ℤ)
  | float (x : ℝ)
  | str (s : String)
  | none

/-- `isinstance(x, (int, float))` from `Location.__init__`. -/
def pyIsNumeric : PyVal → Bool
  | .int _ => true
  | .float _ => true
  | _ => false

/-- The real number carried by a numeric Python value (0 for non-numerics,
which never reach arithmetic because the type check rejects them first). -/
noncomputable def pyToReal : PyVal → ℝ
  | .int n => (n : ℝ)
  | .float x => x
  | _ => 0

/-- Error taxonomy for `Location` construction: `TypeError` for a
non-numeric field, `ValueError` for out-of-range coordinates. -/
inductive LocError where
  | invalidType
  | invalidCoordinate
deriving DecidableEq

/-- Record of a geo-tagged speed measurement (`Location` in
`src/location/location.py`): latitude/longitude in radians, a name, and
upload/download/ping measurements. -/
structure Location where
  latitude : ℝ
  longitude : ℝ
  name : String
  upload : ℝ
  download : ℝ
  ping : ℝ

/-- `Location.is_valid_coordinate`: latitude within `[-π/2, π/2]` and
longitude within `[-π, π]`. -/
def Location.isValidCoordinate (lat lon : ℝ) : Prop :=
  -Real.pi / 2 ≤ lat ∧ lat ≤ Real.pi / 2 ∧ -Real.pi ≤ lon ∧ lon ≤ Real.pi

open Classical in
/-- `Location.__init__`: checks ping, download, upload, latitude and
longitude for numeric type (raising `TypeError`, modelled as
`invalidType`), then validates the coordinate ranges (raising
`ValueError`, modelled as `invalidCoordinate`); on success the record is
populated with the given values. -/
noncomputable def Location.construct (latitude longitude : PyVal) (name : String)
    (upload download ping : PyVal) : Except LocError Location :=
  if ¬ pyIsNumeric ping then .error .invalidType
  else if ¬ pyIsNumeric download then .error .invalidType
  else if ¬ pyIsNumeric upload then .error .invalidType
  else if ¬ pyIsNumeric latitude then .error .invalidType
  else if ¬ pyIsNumeric longitude then .error .invalidType
  else if ¬ Location.isValidCoordinate (pyToReal latitude) (pyToReal longitude) then
    .error .invalidCoordinate
  else
    .ok ⟨pyToReal latitude, pyToReal longitude, name,
         pyToReal upload, pyToReal download, pyToReal ping⟩

/-- The intermediate `a` of `Location.haversine_distance`:
`sin²(dlat/2) + cos(self.latitude)·cos(lat)·sin²(dlon/2)`. -/
noncomputable def Location.haversineA (l : Location) (lat lon : ℝ) : ℝ :=
  Real.sin ((lat - l.latitude) / 2) ^ 2 +
    Real.cos l.latitude * Real.cos lat * Real.sin ((lon - l.longitude) / 2) ^ 2

/-- `Location.haversine_distance`: great-circle distance in kilometres,
`R · c` with `R = 6371.0` and `c = 2·asin(√a)`. -/
noncomputable def Location.haversineDistance (l : Location) (lat lon : ℝ) : ℝ :=
  6371.0 * (2 * Real.arcsin (Real.sqrt (l.haversineA lat lon)))

/-- A coordinate pair (latitude, longitude). -/
abbrev Point := ℝ × ℝ

/-- `math.radians` / `np.radians`: degrees to radians. -/
noncomputable def radiansOf (deg : ℝ) : ℝ := deg * (Real.pi / 180)

/-- Euclidean metric on coordinate pairs (sklearn `metric='euclidean'`). -/
noncomputable def euclideanDist (p q : Point) : ℝ :=
  Real.sqrt ((p.1 - q.1) ^ 2 + (p.2 - q.2) ^ 2)

/-- sklearn `metric='haversine'`: central angle on the unit sphere between
two (latitude, longitude) pairs given in radians. -/
noncomputable def haversineMetric (p q : Point) : ℝ :=
  2 * Real.arcsin (Real.sqrt (Real.sin ((q.1 - p.1) / 2) ^ 2 +
    Real.cos p.1 * Real.cos q.1 * Real.sin ((q.2 - p.2) / 2) ^ 2))

/-- The distance metric selected by `use_haversine`. -/
noncomputable def metricDist (useHaversine : Bool) : Point → Point → ℝ :=
  if useHaversine then haversineMetric else euclideanDist

/-- Error taxonomy for the model (ValueErrors raised by the constructor
and by the underlying library routines). -/
inductive KnnError where
  | emptyDataset
  | invalidParameter
deriving DecidableEq

/-- State of a fitted `KNeighborsRegressor` (weights='distance'): the
stored training coordinates and targets plus the hyperparameters.  The
sklearn `fit` call stores the data without comparing `n_neighbors` to the
sample count. -/
structure Fitted where
  X : List Point
  y : List ℝ
  k : ℕ
  useHaversine : Bool

/-- State of a constructed `KNearestNeighbours` model. -/
structure Model where
  locations : List Location
  nNeighbors : ℕ
  useHaversine : Bool
  assumeRadians : Bool
  testSize : ℚ
  XTrain : List Point
  XTest : List Point
  yUploadTrain : List ℝ
  yUploadTest : List ℝ
  yDownloadTrain : List ℝ
  yDownloadTest : List ℝ
  uploadModel : Fitted
  downloadModel : Fitted

/-- The coordinate matrix built from a location list: each row is
`(latitude, longitude)`, converted to radians when the haversine metric is
selected and the inputs are not already radians (this computation appears
verbatim in `_train_model` and again in `evaluate_models`). -/
noncomputable def trainingCoords (locs : List Location) (uh ar : Bool) : List Point :=
  let raw : List Point := locs.map fun l => (l.latitude, l.longitude)
  if uh && !ar then raw.map fun p => (radiansOf p.1, radiansOf p.2) else raw

/-- sklearn test-subset size for a float `test_size`: `ceil(test_size·N)`. -/
def nTestOf (t : ℚ) (n : ℕ) : ℕ := (⌈t * (n : ℚ)⌉).toNat

/-- sklearn test rows: the first `n_test` entries of the seeded
permutation. -/
def testIdxOf (perm : List ℕ) (t : ℚ) (n : ℕ) : List ℕ := perm.take (nTestOf t n)

/-- sklearn training rows: the next `n_train` entries of the seeded
permutation. -/
def trainIdxOf (perm : List ℕ) (t : ℚ) (n : ℕ) : List ℕ :=
  (perm.drop (nTestOf t n)).take (n - nTestOf t n)

/-- `KNearestNeighbours.__init__` together with `_train_model`.  The
seeded numpy shuffle used by `train_test_split` is passed explicitly as
`perm` (the permutation of row indices drawn from `random_state`); sklearn
takes the test rows from `perm[:n_test]` with `n_test = ceil(test_size·N)`
and the training rows from `perm[n_test : n_test+n_train]`, and raises a
`ValueError` when `test_size` is outside `(0,1)` or a side of the split
would be empty.  Fitting stores the training arrays; `n_neighbors` is only
required to be positive at fit time. -/
noncomputable def mkModel (perm : List ℕ) (locations : List Location) (nNeighbors : ℕ)
    (useHaversine assumeRadians : Bool) (testSize : ℚ) : Except KnnError Model :=
  if locations.isEmpty then .error .emptyDataset else
  let coords : List Point := trainingCoords locations useHaversine assumeRadians
  let uploads : List ℝ := locations.map Location.upload
  let downloads : List ℝ := locations.map Location.download
  let n := locations.length
  if ¬ (0 < testSize ∧ testSize < 1) then .error .invalidParameter else
  let nTest : ℕ := nTestOf testSize n
  let nTrain : ℕ := n - nTest
  if nTrain = 0 then .error .invalidParameter else
  let testIdx := testIdxOf perm testSize n
  let trainIdx := trainIdxOf perm testSize n
  if nNeighbors = 0 then .error .invalidParameter else
  .ok { locations := locations
        nNeighbors := nNeighbors
        useHaversine := useHaversine
        assumeRadians := assumeRadians
        testSize := testSize
        XTrain := trainIdx.map fun i => coords.getD i (0, 0)
        XTest := testIdx.map fun i => coords.getD i (0, 0)
        yUploadTrain := trainIdx.map fun i => uploads.getD i 0
        yUploadTest := testIdx.map fun i => uploads.getD i 0
        yDownloadTrain := trainIdx.map fun i => downloads.getD i 0
        yDownloadTest := testIdx.map fun i => downloads.getD i 0
        uploadModel := ⟨trainIdx.map fun i => coords.getD i (0, 0),
                        trainIdx.map fun i => uploads.getD i 0, nNeighbors, useHaversine⟩
        downloadModel := ⟨trainIdx.map fun i => coords.getD i (0, 0),
                          trainIdx.map fun i => downloads.getD i 0, nNeighbors, useHaversine⟩ }

/-- Construction from a random seed: the permutation is the one the
library's generator draws deterministically from `random_state` (abstracted
as `permOf`). -/
noncomputable def mkModelSeeded (permOf : ℤ → ℕ → List ℕ) (randomState : ℤ)
    (locations : List Location) (nNeighbors : ℕ) (useHaversine assumeRadians : Bool)
    (testSize : ℚ) : Except KnnError Model :=
  mkModel (permOf randomState locations.length) locations nNeighbors useHaversine
    assumeRadians testSize

open Classical in
/-- Scan for the index of minimal distance; on ties the earlier index is
kept (strict comparison never replaces the incumbent). -/
noncomputable def argminFold (d : ℕ → ℝ) (start : ℕ) (rest : List ℕ) : ℕ :=
  rest.foldl (fun b j => if d j < d b then j else b) start

/-- Indices of the `k` smallest distances, nearest first, ties broken by
first-encountered index: repeatedly extract the argmin. -/
noncomputable def selectK (d : ℕ → ℝ) : ℕ → List ℕ → List ℕ
  | 0, _ => []
  | _ + 1, [] => []
  | k + 1, i :: rest =>
    let m := argminFold d i rest
    m :: selectK d k ((i :: rest).erase m)

/-- Distance from the `i`-th stored training row to the query point. -/
noncomputable def Fitted.dist (f : Fitted) (q : Point) (i : ℕ) : ℝ :=
  metricDist f.useHaversine (f.X.getD i (0, 0)) q

/-- `KNeighborsRegressor.kneighbors`: raises when `n_neighbors` exceeds
the number of fitted samples, otherwise returns the `k` nearest stored
rows as (distance, row index) pairs, nearest first. -/
noncomputable def Fitted.kneighbors (f : Fitted) (q : Point) : Except KnnError (List (ℝ × ℕ)) :=
  if f.X.length < f.k then .error .invalidParameter
  else .ok ((selectK (f.dist q) f.k (List.range f.X.length)).map fun i => (f.dist q i, i))

open Classical in
/-- Inverse-distance weighted average of neighbour targets
(`weights='distance'`); when some neighbour is at distance zero, sklearn
gives weight one to exactly the zero-distance neighbours, i.e. the
prediction is the mean of their targets. -/
noncomputable def predictFromNeighbors (nbrs : List (ℝ × ℝ)) : ℝ :=
  let zeros := nbrs.filter fun p => decide (p.1 = 0)
  if zeros.isEmpty then
    (nbrs.map fun p => p.2 / p.1).sum / (nbrs.map fun p => 1 / p.1).sum
  else
    (zeros.map Prod.snd).sum / (zeros.length : ℝ)

/-- The regression value at a query point (the arithmetic of
`KNeighborsRegressor.predict`, without the `n_neighbors` guard). -/
noncomputable def Fitted.predictTotal (f : Fitted) (q : Point) : ℝ :=
  predictFromNeighbors ((selectK (f.dist q) f.k (List.range f.X.length)).map
    fun i => (f.dist q i, f.y.getD i 0))

/-- `KNeighborsRegressor.predict` on a single query row. -/
noncomputable def Fitted.predictOne (f : Fitted) (q : Point) : Except KnnError ℝ :=
  if f.X.length < f.k then .error .invalidParameter else .ok (f.predictTotal q)

/-- `KNearestNeighbours.find_nearest`: converts the query to radians when
the haversine mode requires it, queries the upload regressor's neighbour
index, and pairs `self.locations[idx]` (indexing the *original* location
list with the row index into the fitted training array) with the returned
distance. -/
noncomputable def Model.findNearest (m : Model) (lat lon : ℝ) :
    Except KnnError (List (Location × ℝ)) :=
  let latq := if m.useHaversine && !m.assumeRadians then radiansOf lat else lat
  let lonq := if m.useHaversine && !m.assumeRadians then radiansOf lon else lon
  (m.uploadModel.kneighbors (latq, lonq)).map fun nbrs =>
    nbrs.map fun di => (m.locations.getD di.2 ⟨0, 0, "", 0, 0, 0⟩, di.1)

/-- `KNearestNeighbours.predict`: one coordinate-normalisation pass, then
upload and download predictions from the two fitted regressors. -/
noncomputable def Model.predict (m : Model) (lat lon : ℝ) : Except KnnError (ℝ × ℝ) := do
  let latq := if m.useHaversine && !m.assumeRadians then radiansOf lat else lat
  let lonq := if m.useHaversine && !m.assumeRadians then radiansOf lon else lon
  let up ← m.uploadModel.predictOne (latq, lonq)
  let down ← m.downloadModel.predictOne (latq, lonq)
  pure (up, down)

/-- `numpy.mean` of a list of scores. -/
noncomputable def listMean (xs : List ℝ) : ℝ := xs.sum / (xs.length : ℝ)

/-- `numpy.std` (population standard deviation, `ddof = 0`): square root
of the mean squared deviation from the mean. -/
noncomputable def npStd (xs : List ℝ) : ℝ :=
  Real.sqrt ((xs.map fun x => (x - listMean xs) ^ 2).sum / (xs.length : ℝ))

/-- Modelled from the spec: the *sample* standard deviation (`ddof = 1`)
named by the specification of `evaluate()`; it is not computed anywhere in
the source, which calls `numpy.std` with its default `ddof = 0`. -/
noncomputable def sampleStd (xs : List ℝ) : ℝ :=
  Real.sqrt ((xs.map fun x => (x - listMean xs) ^ 2).sum / ((xs.length : ℝ) - 1))

/-- Root-mean-squared error of a list of (prediction, target) pairs. -/
noncomputable def rmse (pairs : List (ℝ × ℝ)) : ℝ :=
  Real.sqrt ((pairs.map fun p => (p.1 - p.2) ^ 2).sum / (pairs.length : ℝ))

/-- Size of the `i`-th of the 5 contiguous `KFold` folds over `n` rows:
the first `n % 5` folds get one extra row. -/
def foldSize (n i : ℕ) : ℕ := n / 5 + if i < n % 5 then 1 else 0

/-- Starting row of the `i`-th fold. -/
def foldStart (n i : ℕ) : ℕ := i * (n / 5) + min i (n % 5)

/-- Row indices of the `i`-th test fold (contiguous, no shuffling). -/
def foldTestIdx (n i : ℕ) : List ℕ := (List.range (foldSize n i)).map (· + foldStart n i)

/-- Row indices outside the `i`-th test fold. -/
def foldTrainIdx (n i : ℕ) : List ℕ :=
  (List.range n).filter fun j =>
    decide (j < foldStart n i) || decide (foldStart n i + foldSize n i ≤ j)

/-- The clone of the regressor fitted on the rows outside fold `i`
(`cross_val_score` refits a clone with the same hyperparameters). -/
noncomputable def foldFit (X : List Point) (y : List ℝ) (k : ℕ) (uh : Bool) (n i : ℕ) : Fitted :=
  ⟨(foldTrainIdx n i).map fun j => X.getD j (0, 0),
   (foldTrainIdx n i).map fun j => y.getD j 0, k, uh⟩

/-- The `neg_root_mean_squared_error` score of fold `i`. -/
noncomputable def foldScore (X : List Point) (y : List ℝ) (k : ℕ) (uh : Bool) (n i : ℕ) : ℝ :=
  -(rmse ((foldTestIdx n i).map fun j =>
      ((foldFit X y k uh n i).predictTotal (X.getD j (0, 0)), y.getD j 0)))

/-- `cross_val_score(est, X, y, cv=5, scoring='neg_root_mean_squared_error')`:
raises when there are fewer rows than folds or when some fold's training
part is smaller than `n_neighbors`; otherwise returns the five fold
scores. -/
noncomputable def crossValNegRmse (X : List Point) (y : List ℝ) (k : ℕ) (uh : Bool) :
    Except KnnError (List ℝ) :=
  if X.length < 5 then .error .invalidParameter
  else if (List.range 5).all (fun i => decide (k ≤ (foldTrainIdx X.length i).length)) then
    .ok ((List.range 5).map (foldScore X y k uh X.length))
  else .error .invalidParameter

/-- The coordinate matrix `evaluate_models` rebuilds from
`self.locations`, converted to radians under the same rule as training. -/
noncomputable def evalCoords (m : Model) : List Point :=
  trainingCoords m.locations m.useHaversine m.assumeRadians

/-- The dictionary returned by `evaluate_models`. -/
structure EvalReport where
  nSamples : ℕ
  uploadRmse : ℝ
  downloadRmse : ℝ
  uploadRmseStd : ℝ
  downloadRmseStd : ℝ

/-- `KNearestNeighbours.evaluate_models`: 5-fold cross-validation over the
full dataset for the upload and the download model independently; the
returned means are the negated score means and the std fields are
`numpy.std` of the scores. -/
noncomputable def Model.evaluateModels (m : Model) : Except KnnError EvalReport := do
  let uploads := m.locations.map Location.upload
  let downloads := m.locations.map Location.download
  let us ← crossValNegRmse (evalCoords m) uploads m.nNeighbors m.useHaversine
  let ds ← crossValNegRmse (evalCoords m) downloads m.nNeighbors m.useHaversine
  pure ⟨m.locations.length, -(listMean us), -(listMean ds), npStd us, npStd ds⟩

/-- State-passing form of `find_nearest`: the method body reads `self`
but contains no attribute assignment, so the post-state is the receiver
it started from. -/
noncomputable def Model.findNearestS (m : Model) (lat lon : ℝ) :
    Except KnnError (List (Location × ℝ)) × Model :=
  (m.findNearest lat lon, m)

/-- State-passing form of `predict` (no attribute assignment in the body). -/
noncomputable def Model.predictS (m : Model) (lat lon : ℝ) :
    Except KnnError (ℝ × ℝ) × Model :=
  (m.predict lat lon, m)

/-- State-passing form of `evaluate_models` (no attribute assignment in
the body). -/
noncomputable def Model.evaluateModelsS (m : Model) :
    Except KnnError EvalReport × Model :=
  (m.evaluateModels, m)

/-- C2: for every `Location` with valid coordinates and every valid query
point, `haversine_distance` returns
`2·R·asin(√(sin²(dlat/2) + cos(self.lat)·cos(lat)·sin²(dlon/2)))` with
`R = 6371.0`; the self-distance is `0`, the distance to the antipodal
point is `π·6371.0`, and the distance between equator points 90° apart is
`(π/2)·6371.0`. -/
theorem haversine_distance_spec (l : Location) (lat lon : ℝ)
    (hself : Location.isValidCoordinate l.latitude l.longitude)
    (hq : Location.isValidCoordinate lat lon) :
    l.haversineDistance lat lon =
      2 * 6371.0 * Real.arcsin (Real.sqrt
        (Real.sin ((lat - l.latitude) / 2) ^ 2 +
          Real.cos l.latitude * Real.cos lat * Real.sin ((lon - l.longitude) / 2) ^ 2)) ∧
    l.haversineDistance l.latitude l.longitude = 0 ∧
    (lat = -l.latitude → lon = l.longitude + Real.pi →
      l.haversineDistance lat lon = Real.pi * 6371.0) ∧
    (l.latitude = 0 → lat = 0 → lon = l.longitude + Real.pi / 2 →
      l.haversineDistance lat lon = Real.pi / 2 * 6371.0) := by
  refine ⟨?_, ?_, ?_, ?_⟩
  · unfold Location.haversineDistance Location.haversineA
    ring
  · unfold Location.haversineDistance Location.haversineA
    simp [sub_self, zero_div, Real.sin_zero, Real.sqrt_zero, Real.arcsin_zero]
  · intro h1 h2
    subst h1; subst h2
    unfold Location.haversineDistance Location.haversineA
    rw [show (-l.latitude - l.latitude) / 2 = -l.latitude by ring,
        show (l.longitude + Real.pi - l.longitude) / 2 = Real.pi / 2 by ring,
        Real.sin_neg, Real.cos_neg, Real.sin_pi_div_two]
    rw [show (-Real.sin l.latitude) ^ 2 +
          Real.cos l.latitude * Real.cos l.latitude * (1:ℝ) ^ 2 = 1 by
        nlinarith [Real.sin_sq_add_cos_sq l.latitude]]
    rw [Real.sqrt_one, Real.arcsin_one]
    ring
  · intro h0 h1 h2
    subst h1; subst h2
    unfold Location.haversineDistance Location.haversineA
    rw [h0]
    rw [show ((0:ℝ) - 0) / 2 = 0 by ring,
        show (l.longitude + Real.pi / 2 - l.longitude) / 2 = Real.pi / 4 by ring,
        Real.sin_zero, Real.cos_zero, Real.sin_pi_div_four]
    rw [show (0:ℝ) ^ 2 + 1 * 1 * (Real.sqrt 2 / 2) ^ 2 = 1 / 2 by
        rw [div_pow, Real.sq_sqrt (by norm_num : (0:ℝ) ≤ 2)]; norm_num]
    rw [show Real.sqrt (1 / 2) = Real.sqrt 2 / 2 by
        rw [show (1 / 2 : ℝ) = (Real.sqrt 2 / 2) ^ 2 by
            rw [div_pow, Real.sq_sqrt (by norm_num : (0:ℝ) ≤ 2)]; norm_num]
        exact Real.sqrt_sq (by positivity)]
    rw [← Real.sin_pi_div_four,
        Real.arcsin_sin (by linarith [Real.pi_pos]) (by linarith [Real.pi_pos])]
    ring

/-- Witness for C2 at the origin location and origin query point. -/
theorem haversine_distance_spec_witness :
    Location.isValidCoordinate (Location.mk 0 0 "o" 0 0 0).latitude
      (Location.mk 0 0 "o" 0 0 0).longitude ∧
    ((Location.mk 0 0 "o" 0 0 0).haversineDistance 0 0 =
      2 * 6371.0 * Real.arcsin (Real.sqrt
        (Real.sin ((0 - (Location.mk 0 0 "o" 0 0 0).latitude) / 2) ^ 2 +
          Real.cos (Location.mk 0 0 "o" 0 0 0).latitude * Real.cos 0 *
            Real.sin ((0 - (Location.mk 0 0 "o" 0 0 0).longitude) / 2) ^ 2)) ∧
      (Location.mk 0 0 "o" 0 0 0).haversineDistance
        (Location.mk 0 0 "o" 0 0 0).latitude (Location.mk 0 0 "o" 0 0 0).longitude = 0 ∧
      ((0:ℝ) = -(Location.mk 0 0 "o" 0 0 0).latitude →
        (0:ℝ) = (Location.mk 0 0 "o" 0 0 0).longitude + Real.pi →
        (Location.mk 0 0 "o" 0 0 0).haversineDistance 0 0 = Real.pi * 6371.0) ∧
      ((Location.mk 0 0 "o" 0 0 0).latitude = 0 → (0:ℝ) = 0 →
        (0:ℝ) = (Location.mk 0 0 "o" 0 0 0).longitude + Real.pi / 2 →
        (Location.mk 0 0 "o" 0 0 0).haversineDistance 0 0 = Real.pi / 2 * 6371.0)) := by
  have hv : Location.isValidCoordinate (0:ℝ) 0 := by
    unfold Location.isValidCoordinate
    refine ⟨by linarith [Real.pi_pos], by linarith [Real.pi_pos],
      by linarith [Real.pi_pos], by linarith [Real.pi_pos]⟩
  exact ⟨hv, haversine_distance_spec (Location.mk 0 0 "o" 0 0 0) 0 0 hv hv⟩

/-- C10: for coordinates satisfying the construction invariant, the
intermediate haversine term `a` lies in `[0, 1]` (so the square root and
arcsine stay within their domains) and the returned distance lies in
`[0, π·6371.0]`. -/
theorem haversine_term_bounds (l : Location) (lat lon : ℝ)
    (hself : Location.isValidCoordinate l.latitude l.longitude)
    (hq : Location.isValidCoordinate lat lon) :
    0 ≤ l.haversineA lat lon ∧ l.haversineA lat lon ≤ 1 ∧
    0 ≤ l.haversineDistance lat lon ∧
    l.haversineDistance lat lon ≤ Real.pi * 6371.0 := by
  obtain ⟨h1, h2, -, -⟩ := hself
  obtain ⟨g1, g2, -, -⟩ := hq
  have hc1 : 0 ≤ Real.cos l.latitude :=
    Real.cos_nonneg_of_mem_Icc ⟨by linarith, h2⟩
  have hc2 : 0 ≤ Real.cos lat :=
    Real.cos_nonneg_of_mem_Icc ⟨by linarith, g2⟩
  have ha0 : 0 ≤ l.haversineA lat lon := by
    unfold Location.haversineA
    have s1 := sq_nonneg (Real.sin ((lat - l.latitude) / 2))
    have s2 := sq_nonneg (Real.sin ((lon - l.longitude) / 2))
    nlinarith [mul_nonneg hc1 hc2]
  have ha1 : l.haversineA lat lon ≤ 1 := by
    unfold Location.haversineA
    have hs : Real.sin ((lon - l.longitude) / 2) ^ 2 ≤ 1 := Real.sin_sq_le_one _
    have hs0 : 0 ≤ Real.sin ((lon - l.longitude) / 2) ^ 2 := sq_nonneg _
    have hprod : Real.cos l.latitude * Real.cos lat *
        Real.sin ((lon - l.longitude) / 2) ^ 2 ≤ Real.cos l.latitude * Real.cos lat := by
      nlinarith [mul_nonneg hc1 hc2]
    have hsq := Real.sin_sq_eq_half_sub ((lat - l.latitude) / 2)
    rw [show 2 * ((lat - l.latitude) / 2) = lat - l.latitude by ring] at hsq
    have hsub := Real.cos_sub lat l.latitude
    have hadd := Real.cos_add lat l.latitude
    have hle := Real.cos_le_one (lat + l.latitude)
    nlinarith
  refine ⟨ha0, ha1, ?_, ?_⟩
  · unfold Location.haversineDistance
    have harc : 0 ≤ Real.arcsin (Real.sqrt (l.haversineA lat lon)) :=
      Real.arcsin_nonneg.mpr (Real.sqrt_nonneg _)
    nlinarith
  · unfold Location.haversineDistance
    have harc := Real.arcsin_le_pi_div_two (Real.sqrt (l.haversineA lat lon))
    nlinarith

/-- Witness for C10 at the origin location and origin query point. -/
theorem haversine_term_bounds_witness :
    Location.isValidCoordinate (Location.mk 0 0 "o" 1 1 1).latitude
      (Location.mk 0 0 "o" 1 1 1).longitude ∧
    (0 ≤ (Location.mk 0 0 "o" 1 1 1).haversineA 0 0 ∧
      (Location.mk 0 0 "o" 1 1 1).haversineA 0 0 ≤ 1 ∧
      0 ≤ (Location.mk 0 0 "o" 1 1 1).haversineDistance 0 0 ∧
      (Location.mk 0 0 "o" 1 1 1).haversineDistance 0 0 ≤ Real.pi * 6371.0) := by
  have hv : Location.isValidCoordinate (0:ℝ) 0 := by
    unfold Location.isValidCoordinate
    refine ⟨by linarith [Real.pi_pos], by linarith [Real.pi_pos],
      by linarith [Real.pi_pos], by linarith [Real.pi_pos]⟩
  exact ⟨hv, haversine_term_bounds (Location.mk 0 0 "o" 1 1 1) 0 0 hv hv⟩

/-- C9: the query operations `find_nearest`, `predict` and
`evaluate_models` leave the model state unchanged — their bodies contain
no attribute assignment, so the post-state equals the pre-state and the
returned value is a pure function of the model. -/
theorem queries_preserve_state (m : Model) (lat lon : ℝ) :
    (m.findNearestS lat lon).2 = m ∧
    (m.findNearestS lat lon).1 = m.findNearest lat lon ∧
    (m.predictS lat lon).2 = m ∧
    (m.predictS lat lon).1 = m.predict lat lon ∧
    m.evaluateModelsS.2 = m ∧
    m.evaluateModelsS.1 = m.evaluateModels :=
  ⟨rfl, rfl, rfl, rfl, rfl, rfl⟩

/-- C6: two constructions with the same seed over the same inputs yield
identical results (the only randomness is the permutation the library
generator draws deterministically from the seed), hence identical
train/test partitions and identical predictions for any fixed query. -/
theorem same_seed_determinism (permOf : ℤ → ℕ → List ℕ) (seed1 seed2 : ℤ)
    (locs1 locs2 : List Location) (k1 k2 : ℕ) (uh1 uh2 ar1 ar2 : Bool)
    (t1 t2 : ℚ) (lat lon : ℝ)
    (hs : seed1 = seed2) (hl : locs1 = locs2) (hk : k1 = k2) (hu : uh1 = uh2)
    (ha : ar1 = ar2) (ht : t1 = t2) :
    mkModelSeeded permOf seed1 locs1 k1 uh1 ar1 t1 =
      mkModelSeeded permOf seed2 locs2 k2 uh2 ar2 t2 ∧
    ∀ m1 m2 : Model,
      mkModelSeeded permOf seed1 locs1 k1 uh1 ar1 t1 = .ok m1 →
      mkModelSeeded permOf seed2 locs2 k2 uh2 ar2 t2 = .ok m2 →
      m1.XTrain = m2.XTrain ∧ m1.XTest = m2.XTest ∧
      m1.yUploadTrain = m2.yUploadTrain ∧ m1.yDownloadTrain = m2.yDownloadTrain ∧
      m1.predict lat lon = m2.predict lat lon := by
  subst hs; subst hl; subst hk; subst hu; subst ha; subst ht
  refine ⟨rfl, ?_⟩
  intro m1 m2 hm1 hm2
  rw [hm1] at hm2
  obtain rfl := Except.ok.inj hm2
  exact ⟨rfl, rfl, rfl, rfl, rfl⟩

/-- Witness for C6 with a two-location dataset and seed 42. -/
theorem same_seed_determinism_witness :
    (42 : ℤ) = 42 ∧
    (mkModelSeeded (fun _ n => List.range n) 42
        [Location.mk 0 0 "a" 1 2 3, Location.mk 0 (1/10) "b" 4 5 6] 1 false false (1/5) =
      mkModelSeeded (fun _ n => List.range n) 42
        [Location.mk 0 0 "a" 1 2 3, Location.mk 0 (1/10) "b" 4 5 6] 1 false false (1/5) ∧
    ∀ m1 m2 : Model,
      mkModelSeeded (fun _ n => List.range n) 42
        [Location.mk 0 0 "a" 1 2 3, Location.mk 0 (1/10) "b" 4 5 6] 1 false false (1/5) = .ok m1 →
      mkModelSeeded (fun _ n => List.range n) 42
        [Location.mk 0 0 "a" 1 2 3, Location.mk 0 (1/10) "b" 4 5 6] 1 false false (1/5) = .ok m2 →
      m1.XTrain = m2.XTrain ∧ m1.XTest = m2.XTest ∧
      m1.yUploadTrain = m2.yUploadTrain ∧ m1.yDownloadTrain = m2.yDownloadTrain ∧
      m1.predict 0 0 = m2.predict 0 0) :=
  ⟨rfl, same_seed_determinism (fun _ n => List.range n) 42 42 _ _ 1 1 false false
    false false (1/5) (1/5) 0 0 rfl rfl rfl rfl rfl rfl⟩

/-- C7: constructing from an empty location sequence fails with
`EmptyDataset`; for a non-empty sequence, construction either fails or
returns a model whose two regressors are already fitted on the training
partition (training is eager and synchronous). -/
theorem empty_dataset_and_eager_training (perm : List ℕ) (locs : List Location)
    (k : ℕ) (uh ar : Bool) (t : ℚ) (hne : locs ≠ []) :
    mkModel perm [] k uh ar t = .error .emptyDataset ∧
    ((∃ e, mkModel perm locs k uh ar t = .error e) ∨
      (∃ m : Model, mkModel perm locs k uh ar t = .ok m ∧
        m.uploadModel.X = m.XTrain ∧ m.uploadModel.y = m.yUploadTrain ∧
        m.uploadModel.k = k ∧ m.downloadModel.X = m.XTrain ∧
        m.downloadModel.y = m.yDownloadTrain ∧ m.downloadModel.k = k)) := by
  constructor
  · rfl
  · cases h : mkModel perm locs k uh ar t with
    | error e => exact Or.inl ⟨e, rfl⟩
    | ok m =>
      refine Or.inr ⟨m, rfl, ?_⟩
      simp only [mkModel] at h
      repeat' split at h
      all_goals cases h
      all_goals exact ⟨rfl, rfl, rfl, rfl, rfl, rfl⟩

/-- Witness for C7 with a singleton location list. -/
theorem empty_dataset_and_eager_training_witness :
    ([Location.mk 0 0 "a" 1 2 3] : List Location) ≠ [] ∧
    (mkModel [0] [] 1 false false (1/2) = .error .emptyDataset ∧
      ((∃ e, mkModel [0] [Location.mk 0 0 "a" 1 2 3] 1 false false (1/2) = .error e) ∨
        (∃ m : Model,
          mkModel [0] [Location.mk 0 0 "a" 1 2 3] 1 false false (1/2) = .ok m ∧
          m.uploadModel.X = m.XTrain ∧ m.uploadModel.y = m.yUploadTrain ∧
          m.uploadModel.k = 1 ∧ m.downloadModel.X = m.XTrain ∧
          m.downloadModel.y = m.yDownloadTrain ∧ m.downloadModel.k = 1))) :=
  ⟨by simp, empty_dataset_and_eager_training [0] [Location.mk 0 0 "a" 1 2 3]
    1 false false (1/2) (by simp)⟩

/-- C3: `Location` construction fails with `InvalidType` exactly when one
of the five measurement fields is non-numeric (the name is not checked);
given all five numeric, it fails with `InvalidCoordinate` exactly when the
coordinates are out of range; otherwise it succeeds, producing the record
of the given values. -/
theorem location_construct_errors (latitude longitude : PyVal) (name : String)
    (upload download ping : PyVal) :
    (Location.construct latitude longitude name upload download ping =
        .error .invalidType ↔
      ¬ (pyIsNumeric latitude ∧ pyIsNumeric longitude ∧ pyIsNumeric upload ∧
          pyIsNumeric download ∧ pyIsNumeric ping)) ∧
    (pyIsNumeric latitude → pyIsNumeric longitude → pyIsNumeric upload →
      pyIsNumeric download → pyIsNumeric ping →
      (Location.construct latitude longitude name upload download ping =
          .error .invalidCoordinate ↔
        ¬ Location.isValidCoordinate (pyToReal latitude) (pyToReal longitude))) ∧
    (pyIsNumeric latitude → pyIsNumeric longitude → pyIsNumeric upload →
      pyIsNumeric download → pyIsNumeric ping →
      Location.isValidCoordinate (pyToReal latitude) (pyToReal longitude) →
      Location.construct latitude longitude name upload download ping =
        .ok ⟨pyToReal latitude, pyToReal longitude, name,
             pyToReal upload, pyToReal download, pyToReal ping⟩) := by
  unfold Location.construct
  split_ifs with h1 h2 h3 h4 h5 h6 <;> simp_all

/-- Witness for C3 on an all-numeric, in-range input. -/
theorem location_construct_errors_witness :
    (pyIsNumeric (PyVal.float 0) ∧ pyIsNumeric (PyVal.float 0) ∧
      pyIsNumeric (PyVal.int 1) ∧ pyIsNumeric (PyVal.float 2) ∧
      pyIsNumeric (PyVal.float 3)) ∧
    Location.isValidCoordinate (pyToReal (PyVal.float 0)) (pyToReal (PyVal.float 0)) ∧
    Location.construct (PyVal.float 0) (PyVal.float 0) "a" (PyVal.int 1)
        (PyVal.float 2) (PyVal.float 3) =
      .ok ⟨pyToReal (PyVal.float 0), pyToReal (PyVal.float 0), "a",
           pyToReal (PyVal.int 1), pyToReal (PyVal.float 2), pyToReal (PyVal.float 3)⟩ := by
  have hv : Location.isValidCoordinate (pyToReal (PyVal.float 0)) (pyToReal (PyVal.float 0)) := by
    show Location.isValidCoordinate (0:ℝ) 0
    unfold Location.isValidCoordinate
    refine ⟨by linarith [Real.pi_pos], by linarith [Real.pi_pos],
      by linarith [Real.pi_pos], by linarith [Real.pi_pos]⟩
  exact ⟨⟨rfl, rfl, rfl, rfl, rfl⟩, hv,
    (location_construct_errors (PyVal.float 0) (PyVal.float 0) "a" (PyVal.int 1)
      (PyVal.float 2) (PyVal.float 3)).2.2 rfl rfl rfl rfl rfl hv⟩

/-- A location at the origin used in concrete instantiations. -/
noncomputable def locA : Location := ⟨0, 0, "A", 10, 20, 5⟩

/-- A location on the equator at longitude 1 rad. -/
noncomputable def locB : Location := ⟨0, 1, "B", 30, 40, 5⟩

/-- Shape of any successful construction: once the validation guards
pass, the returned model is exactly the record `_train_model` builds. -/
theorem mkModel_ok (perm : List ℕ) (locs : List Location) (k : ℕ) (uh ar : Bool) (t : ℚ)
    (hne : locs.isEmpty = false) (ht : 0 < t ∧ t < 1)
    (hnt : locs.length - nTestOf t locs.length ≠ 0) (hk : k ≠ 0) :
    mkModel perm locs k uh ar t = .ok
      { locations := locs
        nNeighbors := k
        useHaversine := uh
        assumeRadians := ar
        testSize := t
        XTrain := (trainIdxOf perm t locs.length).map fun i =>
          (trainingCoords locs uh ar).getD i (0, 0)
        XTest := (testIdxOf perm t locs.length).map fun i =>
          (trainingCoords locs uh ar).getD i (0, 0)
        yUploadTrain := (trainIdxOf perm t locs.length).map fun i =>
          (locs.map Location.upload).getD i 0
        yUploadTest := (testIdxOf perm t locs.length).map fun i =>
          (locs.map Location.upload).getD i 0
        yDownloadTrain := (trainIdxOf perm t locs.length).map fun i =>
          (locs.map Location.download).getD i 0
        yDownloadTest := (testIdxOf perm t locs.length).map fun i =>
          (locs.map Location.download).getD i 0
        uploadModel := ⟨(trainIdxOf perm t locs.length).map fun i =>
            (trainingCoords locs uh ar).getD i (0, 0),
          (trainIdxOf perm t locs.length).map fun i =>
            (locs.map Location.upload).getD i 0, k, uh⟩
        downloadModel := ⟨(trainIdxOf perm t locs.length).map fun i =>
            (trainingCoords locs uh ar).getD i (0, 0),
          (trainIdxOf perm t locs.length).map fun i =>
            (locs.map Location.download).getD i 0, k, uh⟩ } := by
  simp only [mkModel]
  rw [if_neg (by simp [hne]), if_neg (not_not_intro ht), if_neg hnt, if_neg hk]

/-- The test-subset size for `test_size = 1/5` over two rows is one. -/
theorem nTestOf_fifth_two : nTestOf (1/5) 2 = 1 := by
  have h : (⌈(1/5 : ℚ) * ((2:ℕ) : ℚ)⌉ : ℤ) = 1 := by
    rw [Int.ceil_eq_iff] <;> norm_num
  unfold nTestOf
  rw [h]
  rfl

/-- The model obtained from `[locA, locB]` with oversized `n_neighbors = 5`. -/
noncomputable def modelAB5 : Model :=
  { locations := [locA, locB]
    nNeighbors := 5
    useHaversine := false
    assumeRadians := false
    testSize := 1/5
    XTrain := [(0, 1)]
    XTest := [(0, 0)]
    yUploadTrain := [30]
    yUploadTest := [10]
    yDownloadTrain := [40]
    yDownloadTest := [20]
    uploadModel := ⟨[(0, 1)], [30], 5, false⟩
    downloadModel := ⟨[(0, 1)], [40], 5, false⟩ }

/-- Construction of `modelAB5` succeeds. -/
theorem mkModelAB5 : mkModel [0, 1] [locA, locB] 5 false false (1/5) = .ok modelAB5 := by
  have hlen : ([locA, locB] : List Location).length = 2 := rfl
  rw [mkModel_ok [0, 1] [locA, locB] 5 false false (1/5) rfl ⟨by norm_num, by norm_num⟩
      (by rw [hlen, nTestOf_fifth_two]; decide) (by norm_num)]
  simp only [hlen, trainIdxOf, testIdxOf, nTestOf_fifth_two]
  rfl

/-- C8 counterexample: with two locations and `test_size = 1/5` the
training partition has a single row, yet construction with
`n_neighbors = 5` succeeds — the constructor never compares `n_neighbors`
with the training-set size (sklearn only raises at query time), so the
claim that construction fails whenever `n_neighbors ≥ #training rows` is
false. -/
theorem oversized_k_constructs_ok :
    mkModel [0, 1] [locA, locB] 5 false false (1/5) = .ok modelAB5 ∧
    modelAB5.XTrain.length = 1 ∧ (1 : ℕ) ≤ modelAB5.nNeighbors :=
  ⟨mkModelAB5, rfl, by norm_num [modelAB5]⟩

/-- C8 amended: construction fails with `InvalidParameter` precisely when
`test_fraction` is outside `(0,1)`, or the split would leave an empty
training partition, or `n_neighbors = 0`; an oversized `n_neighbors` does
not fail construction. -/
theorem construction_invalid_parameter_iff (perm : List ℕ) (locs : List Location)
    (k : ℕ) (uh ar : Bool) (t : ℚ) (hne : locs ≠ []) :
    mkModel perm locs k uh ar t = .error .invalidParameter ↔
      (¬ (0 < t ∧ t < 1) ∨ locs.length - nTestOf t locs.length = 0 ∨ k = 0) := by
  have hemp : locs.isEmpty = false := by
    cases locs with
    | nil => exact absurd rfl hne
    | cons a as => rfl
  simp only [mkModel, hemp]
  split_ifs with h1 h2 h3 <;> simp_all

/-- Witness for C8's amended claim: `test_size = 2` is rejected. -/
theorem construction_invalid_parameter_iff_witness :
    ([locA] : List Location) ≠ [] ∧
    (mkModel [0] [locA] 1 false false 2 = .error .invalidParameter ↔
      (¬ ((0:ℚ) < 2 ∧ (2:ℚ) < 1) ∨
        ([locA] : List Location).length - nTestOf 2 ([locA] : List Location).length = 0 ∨
        (1:ℕ) = 0)) :=
  ⟨by simp, construction_invalid_parameter_iff [0] [locA] 1 false false 2 (by simp)⟩

/-- Seven identical rows used for the split-size counterexample. -/
noncomputable def locs7 : List Location := List.replicate 7 locA

/-- The test-subset size for `test_size = 1/5` over seven rows is two. -/
theorem nTestOf_fifth_seven : nTestOf (1/5) 7 = 2 := by
  have h : (⌈(1/5 : ℚ) * ((7:ℕ) : ℚ)⌉ : ℤ) = 2 := by
    rw [Int.ceil_eq_iff]
    norm_num
  unfold nTestOf
  rw [h]
  rfl

/-- C4 counterexample: with `N = 7` and `test_fraction = 1/5` the code's
test subset has `ceil(7·1/5) = 2` rows, while the claimed
`round(7·1/5) = 1`; sklearn sizes the test split with `ceil`, not
`round`. -/
theorem test_size_not_round_counterexample :
    (mkModel (List.range 7) locs7 1 false false (1/5)).map (fun m => m.XTest.length) =
      .ok 2 ∧
    round ((7 : ℚ) * (1/5)) = 1 ∧ (2 : ℕ) ≠ 1 := by
  refine ⟨?_, ?_, by decide⟩
  · have hlen : locs7.length = 7 := rfl
    rw [mkModel_ok (List.range 7) locs7 1 false false (1/5) rfl ⟨by norm_num, by norm_num⟩
        (by rw [hlen, nTestOf_fifth_seven]; decide) (by norm_num)]
    simp only [Except.map, hlen, testIdxOf, nTestOf_fifth_seven]
    rfl
  · rw [round_eq]
    rw [show (7:ℚ) * (1/5) + 1/2 = 19/10 by norm_num]
    rw [show (⌊(19/10 : ℚ)⌋ : ℤ) = 1 by
      rw [Int.floor_eq_iff]
      norm_num]

/-- C4 amended: construction splits the rows by the seeded permutation
into a test subset of size `ceil(N·test_fraction)` and the complementary
training subset, the same row-index partition serves the upload and the
download targets, and both regressors are fitted from exactly that
training partition. -/
theorem train_test_partition_ceil (perm : List ℕ) (locs : List Location) (k : ℕ)
    (uh ar : Bool) (t : ℚ) (m : Model) (hlen : perm.length = locs.length)
    (hok : mkModel perm locs k uh ar t = .ok m) :
    m.XTest = (testIdxOf perm t locs.length).map
        (fun i => (trainingCoords locs uh ar).getD i (0, 0)) ∧
    m.XTrain = (trainIdxOf perm t locs.length).map
        (fun i => (trainingCoords locs uh ar).getD i (0, 0)) ∧
    m.yUploadTrain = (trainIdxOf perm t locs.length).map
        (fun i => (locs.map Location.upload).getD i 0) ∧
    m.yDownloadTrain = (trainIdxOf perm t locs.length).map
        (fun i => (locs.map Location.download).getD i 0) ∧
    (testIdxOf perm t locs.length).length = nTestOf t locs.length ∧
    (trainIdxOf perm t locs.length).length = locs.length - nTestOf t locs.length ∧
    m.uploadModel = ⟨m.XTrain, m.yUploadTrain, k, uh⟩ ∧
    m.downloadModel = ⟨m.XTrain, m.yDownloadTrain, k, uh⟩ := by
  simp only [mkModel] at hok
  repeat' split at hok
  all_goals cases hok
  case _ hts hnt hk =>
    have ht : 0 < t ∧ t < 1 := not_not.mp hts
    have hceil : (⌈t * (locs.length : ℚ)⌉ : ℤ) ≤ (locs.length : ℤ) := by
      have hmul : t * (locs.length : ℚ) ≤ 1 * (locs.length : ℚ) :=
        mul_le_mul_of_nonneg_right ht.2.le (Nat.cast_nonneg _)
      calc (⌈t * (locs.length : ℚ)⌉ : ℤ) ≤ ⌈(1 : ℚ) * (locs.length : ℚ)⌉ :=
            Int.ceil_le_ceil hmul
        _ = (locs.length : ℤ) := by rw [one_mul, Int.ceil_natCast]
    have hnTest : nTestOf t locs.length ≤ locs.length := by
      unfold nTestOf
      exact Int.toNat_le.mpr hceil
    refine ⟨rfl, rfl, rfl, rfl, ?_, ?_, rfl, rfl⟩
    · simp [testIdxOf, hlen, hnTest]
    · simp [trainIdxOf, hlen]

/-- The model obtained from `[locA, locB]` with `n_neighbors = 1`. -/
noncomputable def modelAB1 : Model :=
  { locations := [locA, locB]
    nNeighbors := 1
    useHaversine := false
    assumeRadians := false
    testSize := 1/5
    XTrain := [(0, 1)]
    XTest := [(0, 0)]
    yUploadTrain := [30]
    yUploadTest := [10]
    yDownloadTrain := [40]
    yDownloadTest := [20]
    uploadModel := ⟨[(0, 1)], [30], 1, false⟩
    downloadModel := ⟨[(0, 1)], [40], 1, false⟩ }

/-- Construction of `modelAB1` succeeds. -/
theorem mkModelAB1 : mkModel [0, 1] [locA, locB] 1 false false (1/5) = .ok modelAB1 := by
  have hlen : ([locA, locB] : List Location).length = 2 := rfl
  rw [mkModel_ok [0, 1] [locA, locB] 1 false false (1/5) rfl ⟨by norm_num, by norm_num⟩
      (by rw [hlen, nTestOf_fifth_two]; decide) (by norm_num)]
  simp only [hlen, trainIdxOf, testIdxOf, nTestOf_fifth_two]
  rfl

/-- Witness for C4's amended claim on the two-location dataset. -/
theorem train_test_partition_ceil_witness :
    ([0, 1] : List ℕ).length = ([locA, locB] : List Location).length ∧
    mkModel [0, 1] [locA, locB] 1 false false (1/5) = .ok modelAB1 ∧
    (modelAB1.XTest = (testIdxOf [0, 1] (1/5) ([locA, locB] : List Location).length).map
        (fun i => (trainingCoords [locA, locB] false false).getD i (0, 0)) ∧
      modelAB1.XTrain = (trainIdxOf [0, 1] (1/5) ([locA, locB] : List Location).length).map
        (fun i => (trainingCoords [locA, locB] false false).getD i (0, 0)) ∧
      modelAB1.yUploadTrain =
        (trainIdxOf [0, 1] (1/5) ([locA, locB] : List Location).length).map
          (fun i => (([locA, locB] : List Location).map Location.upload).getD i 0) ∧
      modelAB1.yDownloadTrain =
        (trainIdxOf [0, 1] (1/5) ([locA, locB] : List Location).length).map
          (fun i => (([locA, locB] : List Location).map Location.download).getD i 0) ∧
      (testIdxOf [0, 1] (1/5) ([locA, locB] : List Location).length).length =
        nTestOf (1/5) ([locA, locB] : List Location).length ∧
      (trainIdxOf [0, 1] (1/5) ([locA, locB] : List Location).length).length =
        ([locA, locB] : List Location).length -
          nTestOf (1/5) ([locA, locB] : List Location).length ∧
      modelAB1.uploadModel = ⟨modelAB1.XTrain, modelAB1.yUploadTrain, 1, false⟩ ∧
      modelAB1.downloadModel = ⟨modelAB1.XTrain, modelAB1.yDownloadTrain, 1, false⟩) :=
  ⟨rfl, mkModelAB1,
    train_test_partition_ceil [0, 1] [locA, locB] 1 false false (1/5) modelAB1 rfl mkModelAB1⟩

/-- A scan that starts at a zero-distance index never moves: every other
distance is nonnegative, so the strict comparison fails. -/
theorem argminFold_zero (d : ℕ → ℝ) (i : ℕ) (rest : List ℕ) (h0 : d i = 0)
    (hnn : ∀ j, 0 ≤ d j) : argminFold d i rest = i := by
  unfold argminFold
  induction rest with
  | nil => rfl
  | cons a l ih =>
    rw [List.foldl_cons, if_neg (by rw [h0]; exact not_lt.mpr (hnn a))]
    exact ih

/-- Ten locations on the equator at longitudes `0, 1/10, …, 9/10` rad. -/
noncomputable def locs10 : List Location :=
  [⟨0, 0, "s0", 0, 0, 0⟩, ⟨0, 1/10, "s1", 0, 0, 0⟩, ⟨0, 2/10, "s2", 0, 0, 0⟩,
   ⟨0, 3/10, "s3", 0, 0, 0⟩, ⟨0, 4/10, "s4", 0, 0, 0⟩, ⟨0, 5/10, "s5", 0, 0, 0⟩,
   ⟨0, 6/10, "s6", 0, 0, 0⟩, ⟨0, 7/10, "s7", 0, 0, 0⟩, ⟨0, 8/10, "s8", 0, 0, 0⟩,
   ⟨0, 9/10, "s9", 0, 0, 0⟩]

/-- The permutation numpy's generator draws for `seed 42` over ten rows
(`RandomState(42).permutation(10)`). -/
def perm42 : List ℕ := [8, 1, 5, 0, 7, 2, 9, 4, 3, 6]

/-- The test-subset size for `test_size = 1/5` over ten rows is two. -/
theorem nTestOf_fifth_ten : nTestOf (1/5) 10 = 2 := by
  have h : (⌈(1/5 : ℚ) * ((10:ℕ) : ℚ)⌉ : ℤ) = 2 := by
    rw [Int.ceil_eq_iff]
    norm_num
  unfold nTestOf
  rw [h]
  rfl

/-- The model trained on `locs10` under `perm42`: the test rows are
`[8, 1]` and the training rows `[5, 0, 7, 2, 9, 4, 3, 6]`. -/
noncomputable def model10 : Model :=
  { locations := locs10
    nNeighbors := 1
    useHaversine := false
    assumeRadians := false
    testSize := 1/5
    XTrain := [(0, 5/10), (0, 0), (0, 7/10), (0, 2/10),
               (0, 9/10), (0, 4/10), (0, 3/10), (0, 6/10)]
    XTest := [(0, 8/10), (0, 1/10)]
    yUploadTrain := [0, 0, 0, 0, 0, 0, 0, 0]
    yUploadTest := [0, 0]
    yDownloadTrain := [0, 0, 0, 0, 0, 0, 0, 0]
    yDownloadTest := [0, 0]
    uploadModel := ⟨[(0, 5/10), (0, 0), (0, 7/10), (0, 2/10),
                     (0, 9/10), (0, 4/10), (0, 3/10), (0, 6/10)],
                    [0, 0, 0, 0, 0, 0, 0, 0], 1, false⟩
    downloadModel := ⟨[(0, 5/10), (0, 0), (0, 7/10), (0, 2/10),
                       (0, 9/10), (0, 4/10), (0, 3/10), (0, 6/10)],
                      [0, 0, 0, 0, 0, 0, 0, 0], 1, false⟩ }

/-- Construction of `model10` succeeds. -/
theorem mkModel10 : mkModel perm42 locs10 1 false false (1/5) = .ok model10 := by
  have hlen : locs10.length = 10 := rfl
  rw [mkModel_ok perm42 locs10 1 false false (1/5) rfl ⟨by norm_num, by norm_num⟩
      (by rw [hlen, nTestOf_fifth_ten]; decide) (by norm_num)]
  simp only [hlen, trainIdxOf, testIdxOf, nTestOf_fifth_ten]
  rfl

/-- The stored training row 0 of `model10` coincides with the query
`(0, 5/10)`, so its distance is zero. -/
theorem model10_dist_zero : model10.uploadModel.dist ((0:ℝ), (5/10:ℝ)) 0 = 0 := by
  show euclideanDist ((0:ℝ), (5/10:ℝ)) ((0:ℝ), (5/10:ℝ)) = 0
  unfold euclideanDist
  norm_num [Real.sqrt_zero]

/-- All distances from `model10`'s training rows are nonnegative. -/
theorem model10_dist_nonneg (j : ℕ) :
    0 ≤ model10.uploadModel.dist ((0:ℝ), (5/10:ℝ)) j := by
  show 0 ≤ euclideanDist (model10.uploadModel.X.getD j (0, 0)) ((0:ℝ), (5/10:ℝ))
  exact Real.sqrt_nonneg _

/-- `kneighbors` on `model10` at the query `(0, 5/10)` returns training
row index 0 at distance 0. -/
theorem model10_kneighbors :
    model10.uploadModel.kneighbors ((0:ℝ), (5/10:ℝ)) = .ok [((0:ℝ), (0:ℕ))] := by
  have hsel : selectK (model10.uploadModel.dist ((0:ℝ), (5/10:ℝ))) 1 (List.range 8) = [0] := by
    have h := argminFold_zero (model10.uploadModel.dist ((0:ℝ), (5/10:ℝ))) 0
      [1, 2, 3, 4, 5, 6, 7] model10_dist_zero model10_dist_nonneg
    calc selectK (model10.uploadModel.dist ((0:ℝ), (5/10:ℝ))) 1 (List.range 8)
        = argminFold (model10.uploadModel.dist ((0:ℝ), (5/10:ℝ))) 0 [1, 2, 3, 4, 5, 6, 7] ::
            selectK (model10.uploadModel.dist ((0:ℝ), (5/10:ℝ))) 0
              ((0 :: [1, 2, 3, 4, 5, 6, 7]).erase
                (argminFold (model10.uploadModel.dist ((0:ℝ), (5/10:ℝ))) 0
                  [1, 2, 3, 4, 5, 6, 7])) := rfl
      _ = [0] := by rw [h]; rfl
  unfold Fitted.kneighbors
  rw [if_neg (by decide : ¬ model10.uploadModel.X.length < model10.uploadModel.k)]
  show Except.ok ((selectK (model10.uploadModel.dist ((0:ℝ), (5/10:ℝ))) 1
      (List.range 8)).map fun i => (model10.uploadModel.dist ((0:ℝ), (5/10:ℝ)) i, i)) =
    .ok [((0:ℝ), (0:ℕ))]
  rw [hsel]
  simp only [List.map_cons, List.map_nil, model10_dist_zero]

/-- C1: `find_nearest` evaluated on `model10` at the query `(0, 5/10)`.
The nearest training-set location is `s5` (the query coincides with it),
but the code indexes `self.locations` with the row index into the
*shuffled training array* and returns `s0` — a location at distance
`5/10` from the query — paired with the distance `0`, contradicting both
the specification and the method's own docstring. -/
theorem find_nearest_mispairs_locations :
    mkModel perm42 locs10 1 false false (1/5) = .ok model10 ∧
    model10.findNearest 0 (5/10) = .ok [(⟨0, 0, "s0", 0, 0, 0⟩, 0)] ∧
    euclideanDist ((0:ℝ), (0:ℝ)) ((0:ℝ), (5/10:ℝ)) = 5/10 ∧
    euclideanDist ((0:ℝ), (5/10:ℝ)) ((0:ℝ), (5/10:ℝ)) = 0 ∧
    locs10.getD 5 ⟨0, 0, "", 0, 0, 0⟩ = ⟨0, 5/10, "s5", 0, 0, 0⟩ ∧
    ((5/10 : ℝ) ≠ 0) := by
  refine ⟨mkModel10, ?_, ?_, ?_, rfl, by norm_num⟩
  · have hbody : model10.findNearest 0 (5/10) =
        (model10.uploadModel.kneighbors ((0:ℝ), (5/10:ℝ))).map
          (fun nbrs => nbrs.map fun di =>
            (model10.locations.getD di.2 ⟨0, 0, "", 0, 0, 0⟩, di.1)) := rfl
    rw [hbody, model10_kneighbors]
    rfl
  · unfold euclideanDist
    rw [show (((0:ℝ), (0:ℝ)).1 - ((0:ℝ), (5/10:ℝ)).1) ^ 2 +
        (((0:ℝ), (0:ℝ)).2 - ((0:ℝ), (5/10:ℝ)).2) ^ 2 = (5/10) ^ 2 by norm_num]
    rw [Real.sqrt_sq (by norm_num)]
  · unfold euclideanDist
    norm_num [Real.sqrt_zero]

/-- The distance from a point to itself is zero. -/
theorem euclideanDist_self (p : Point) : euclideanDist p p = 0 := by
  unfold euclideanDist
  norm_num [Real.sqrt_zero]

/-- Unit distance along the longitude axis. -/
theorem euclideanDist_01 : euclideanDist ((0:ℝ), (0:ℝ)) ((0:ℝ), (1:ℝ)) = 1 := by
  unfold euclideanDist
  rw [show (((0:ℝ), (0:ℝ)).1 - ((0:ℝ), (1:ℝ)).1) ^ 2 +
      (((0:ℝ), (0:ℝ)).2 - ((0:ℝ), (1:ℝ)).2) ^ 2 = 1 by norm_num]
  exact Real.sqrt_one

/-- Distances from a euclidean-metric regressor are nonnegative. -/
theorem euclidFit_dist_nonneg (X : List Point) (y : List ℝ) (k : ℕ) (q : Point) (j : ℕ) :
    0 ≤ (Fitted.mk X y k false).dist q j := by
  show 0 ≤ euclideanDist (X.getD j (0, 0)) q
  exact Real.sqrt_nonneg _

/-- With a single neighbour at distance zero, the prediction is that
neighbour's stored target (the zero-distance weighting rule). -/
theorem predictTotal_eval (f : Fitted) (q : Point) (j : ℕ)
    (hsel : selectK (f.dist q) f.k (List.range f.X.length) = [j])
    (hdj : f.dist q j = 0) :
    f.predictTotal q = f.y.getD j 0 := by
  unfold Fitted.predictTotal
  rw [hsel]
  simp only [List.map_cons, List.map_nil, hdj]
  unfold predictFromNeighbors
  simp

/-- The argmin scan over distances `1, 1, 1, 0` lands on index 3. -/
theorem selectK_last (d : ℕ → ℝ) (h0 : d 0 = 1) (h1 : d 1 = 1) (h2 : d 2 = 1)
    (h3 : d 3 = 0) : selectK d 1 (List.range 4) = [3] := by
  have h : argminFold d 0 [1, 2, 3] = 3 := by
    unfold argminFold
    rw [List.foldl_cons, if_neg (by rw [h1, h0]; norm_num)]
    rw [List.foldl_cons, if_neg (by rw [h2, h0]; norm_num)]
    rw [List.foldl_cons, if_pos (by rw [h3, h0]; norm_num)]
    rfl
  calc selectK d 1 (List.range 4)
      = argminFold d 0 [1, 2, 3] ::
        selectK d 0 ((0 :: [1, 2, 3]).erase (argminFold d 0 [1, 2, 3])) := rfl
    _ = [3] := by rw [h]; rfl

/-- Five locations for the evaluation counterexample: three at `(0,0)`
with targets `10` and two at `(0,1)` with targets `5` and `6`. -/
noncomputable def locs5 : List Location :=
  [⟨0, 0, "p0", 10, 10, 1⟩, ⟨0, 0, "p1", 10, 10, 1⟩, ⟨0, 0, "p2", 10, 10, 1⟩,
   ⟨0, 1, "p3", 5, 5, 1⟩, ⟨0, 1, "p4", 6, 6, 1⟩]

/-- The coordinate matrix of `locs5`. -/
noncomputable def coords5 : List Point := [(0, 0), (0, 0), (0, 0), (0, 1), (0, 1)]

/-- The target vector of `locs5` (uploads and downloads coincide). -/
noncomputable def ups5 : List ℝ := [10, 10, 10, 5, 6]

/-- The per-fold regressor for folds 0, 1 and 2 of `coords5`. -/
noncomputable def fitA : Fitted :=
  ⟨[(0, 0), (0, 0), (0, 1), (0, 1)], [10, 10, 5, 6], 1, false⟩

/-- The per-fold regressor for fold 3 of `coords5`. -/
noncomputable def fitB : Fitted :=
  ⟨[(0, 0), (0, 0), (0, 0), (0, 1)], [10, 10, 10, 6], 1, false⟩

/-- The per-fold regressor for fold 4 of `coords5`. -/
noncomputable def fitC : Fitted :=
  ⟨[(0, 0), (0, 0), (0, 0), (0, 1)], [10, 10, 10, 5], 1, false⟩

/-- Fold regressor A predicts target 10 at the duplicated point `(0,0)`. -/
theorem fitA_pred : fitA.predictTotal ((0:ℝ), (0:ℝ)) = 10 := by
  have hd0 : fitA.dist ((0:ℝ), (0:ℝ)) 0 = 0 := euclideanDist_self _
  have hsel : selectK (fitA.dist ((0:ℝ), (0:ℝ))) 1 (List.range 4) = [0] := by
    have h := argminFold_zero (fitA.dist ((0:ℝ), (0:ℝ))) 0 [1, 2, 3] hd0
      (fun j => euclidFit_dist_nonneg _ _ _ _ j)
    calc selectK (fitA.dist ((0:ℝ), (0:ℝ))) 1 (List.range 4)
        = argminFold (fitA.dist ((0:ℝ), (0:ℝ))) 0 [1, 2, 3] ::
            selectK (fitA.dist ((0:ℝ), (0:ℝ))) 0
              ((0 :: [1, 2, 3]).erase
                (argminFold (fitA.dist ((0:ℝ), (0:ℝ))) 0 [1, 2, 3])) := rfl
      _ = [0] := by rw [h]; rfl
  rw [predictTotal_eval fitA ((0:ℝ), (0:ℝ)) 0 hsel hd0]
  rfl

/-- Fold regressor B predicts target 6 at the duplicated point `(0,1)`. -/
theorem fitB_pred : fitB.predictTotal ((0:ℝ), (1:ℝ)) = 6 := by
  have hd3 : fitB.dist ((0:ℝ), (1:ℝ)) 3 = 0 := euclideanDist_self _
  have hsel : selectK (fitB.dist ((0:ℝ), (1:ℝ))) 1 (List.range 4) = [3] :=
    selectK_last _ euclideanDist_01 euclideanDist_01 euclideanDist_01 hd3
  rw [predictTotal_eval fitB ((0:ℝ), (1:ℝ)) 3 hsel hd3]
  rfl

/-- Fold regressor C predicts target 5 at the duplicated point `(0,1)`. -/
theorem fitC_pred : fitC.predictTotal ((0:ℝ), (1:ℝ)) = 5 := by
  have hd3 : fitC.dist ((0:ℝ), (1:ℝ)) 3 = 0 := euclideanDist_self _
  have hsel : selectK (fitC.dist ((0:ℝ), (1:ℝ))) 1 (List.range 4) = [3] :=
    selectK_last _ euclideanDist_01 euclideanDist_01 euclideanDist_01 hd3
  rw [predictTotal_eval fitC ((0:ℝ), (1:ℝ)) 3 hsel hd3]
  rfl

/-- Fold 0 of the upload cross-validation scores zero error. -/
theorem foldScore5_0 : foldScore coords5 ups5 1 false 5 0 = 0 := by
  unfold foldScore
  rw [show foldTestIdx 5 0 = [0] from rfl,
      show foldFit coords5 ups5 1 false 5 0 = fitA from rfl]
  simp only [List.map_cons, List.map_nil]
  rw [show coords5.getD 0 (0, 0) = ((0:ℝ), (0:ℝ)) from rfl, fitA_pred,
      show ups5.getD 0 0 = (10:ℝ) from rfl]
  unfold rmse
  simp only [List.map_cons, List.map_nil, List.sum_cons, List.sum_nil,
    List.length_cons, List.length_nil]
  norm_num [Real.sqrt_zero]

/-- Fold 1 of the upload cross-validation scores zero error. -/
theorem foldScore5_1 : foldScore coords5 ups5 1 false 5 1 = 0 := by
  unfold foldScore
  rw [show foldTestIdx 5 1 = [1] from rfl,
      show foldFit coords5 ups5 1 false 5 1 = fitA from rfl]
  simp only [List.map_cons, List.map_nil]
  rw [show coords5.getD 1 (0, 0) = ((0:ℝ), (0:ℝ)) from rfl, fitA_pred,
      show ups5.getD 1 0 = (10:ℝ) from rfl]
  unfold rmse
  simp only [List.map_cons, List.map_nil, List.sum_cons, List.sum_nil,
    List.length_cons, List.length_nil]
  norm_num [Real.sqrt_zero]

/-- Fold 2 of the upload cross-validation scores zero error. -/
theorem foldScore5_2 : foldScore coords5 ups5 1 false 5 2 = 0 := by
  unfold foldScore
  rw [show foldTestIdx 5 2 = [2] from rfl,
      show foldFit coords5 ups5 1 false 5 2 = fitA from rfl]
  simp only [List.map_cons, List.map_nil]
  rw [show coords5.getD 2 (0, 0) = ((0:ℝ), (0:ℝ)) from rfl, fitA_pred,
      show ups5.getD 2 0 = (10:ℝ) from rfl]
  unfold rmse
  simp only [List.map_cons, List.map_nil, List.sum_cons, List.sum_nil,
    List.length_cons, List.length_nil]
  norm_num [Real.sqrt_zero]

/-- Fold 3 predicts 6 for the true target 5: score `-1`. -/
theorem foldScore5_3 : foldScore coords5 ups5 1 false 5 3 = -1 := by
  unfold foldScore
  rw [show foldTestIdx 5 3 = [3] from rfl,
      show foldFit coords5 ups5 1 false 5 3 = fitB from rfl]
  simp only [List.map_cons, List.map_nil]
  rw [show coords5.getD 3 (0, 0) = ((0:ℝ), (1:ℝ)) from rfl, fitB_pred,
      show ups5.getD 3 0 = (5:ℝ) from rfl]
  unfold rmse
  simp only [List.map_cons, List.map_nil, List.sum_cons, List.sum_nil,
    List.length_cons, List.length_nil]
  norm_num [Real.sqrt_one]

/-- Fold 4 predicts 5 for the true target 6: score `-1`. -/
theorem foldScore5_4 : foldScore coords5 ups5 1 false 5 4 = -1 := by
  unfold foldScore
  rw [show foldTestIdx 5 4 = [4] from rfl,
      show foldFit coords5 ups5 1 false 5 4 = fitC from rfl]
  simp only [List.map_cons, List.map_nil]
  rw [show coords5.getD 4 (0, 0) = ((0:ℝ), (1:ℝ)) from rfl, fitC_pred,
      show ups5.getD 4 0 = (6:ℝ) from rfl]
  unfold rmse
  simp only [List.map_cons, List.map_nil, List.sum_cons, List.sum_nil,
    List.length_cons, List.length_nil]
  norm_num [Real.sqrt_one]

/-- The five upload (and equally download) fold scores of `locs5`. -/
theorem crossVal5 : crossValNegRmse coords5 ups5 1 false = .ok [0, 0, 0, -1, -1] := by
  unfold crossValNegRmse
  rw [if_neg (by decide : ¬ coords5.length < 5)]
  rw [if_pos (by decide :
    ((List.range 5).all fun i => decide (1 ≤ (foldTrainIdx coords5.length i).length)) = true)]
  rw [show coords5.length = 5 from rfl, show List.range 5 = [0, 1, 2, 3, 4] from rfl]
  simp only [List.map_cons, List.map_nil, foldScore5_0, foldScore5_1, foldScore5_2,
    foldScore5_3, foldScore5_4]

/-- The test-subset size for `test_size = 1/5` over five rows is one. -/
theorem nTestOf_fifth_five : nTestOf (1/5) 5 = 1 := by
  have h : (⌈(1/5 : ℚ) * ((5:ℕ) : ℚ)⌉ : ℤ) = 1 := by
    rw [Int.ceil_eq_iff]
    norm_num
  unfold nTestOf
  rw [h]
  rfl

/-- The model trained on `locs5` under the identity permutation. -/
noncomputable def model5 : Model :=
  { locations := locs5
    nNeighbors := 1
    useHaversine := false
    assumeRadians := false
    testSize := 1/5
    XTrain := [(0, 0), (0, 0), (0, 1), (0, 1)]
    XTest := [(0, 0)]
    yUploadTrain := [10, 10, 5, 6]
    yUploadTest := [10]
    yDownloadTrain := [10, 10, 5, 6]
    yDownloadTest := [10]
    uploadModel := ⟨[(0, 0), (0, 0), (0, 1), (0, 1)], [10, 10, 5, 6], 1, false⟩
    downloadModel := ⟨[(0, 0), (0, 0), (0, 1), (0, 1)], [10, 10, 5, 6], 1, false⟩ }

/-- Construction of `model5` succeeds. -/
theorem mkModel5 : mkModel (List.range 5) locs5 1 false false (1/5) = .ok model5 := by
  have hlen : locs5.length = 5 := rfl
  rw [mkModel_ok (List.range 5) locs5 1 false false (1/5) rfl ⟨by norm_num, by norm_num⟩
      (by rw [hlen, nTestOf_fifth_five]; decide) (by norm_num)]
  simp only [hlen, trainIdxOf, testIdxOf, nTestOf_fifth_five]
  rfl

/-- The mean of the five fold scores. -/
theorem listMean_scores5 : listMean [(0:ℝ), 0, 0, -1, -1] = -(2/5) := by
  unfold listMean
  simp only [List.sum_cons, List.sum_nil, List.length_cons, List.length_nil]
  norm_num

/-- `numpy.std` of the five fold scores. -/
theorem npStd_scores5 : npStd [(0:ℝ), 0, 0, -1, -1] = Real.sqrt (6/25) := by
  unfold npStd
  simp only [listMean_scores5, List.map_cons, List.map_nil, List.sum_cons, List.sum_nil,
    List.length_cons, List.length_nil]
  norm_num

/-- The mean of the five fold RMSE values. -/
theorem listMean_rmse5 : listMean [(0:ℝ), 0, 0, 1, 1] = 2/5 := by
  unfold listMean
  simp only [List.sum_cons, List.sum_nil, List.length_cons, List.length_nil]
  norm_num

/-- The *sample* standard deviation of the five fold RMSE values. -/
theorem sampleStd_rmse5 : sampleStd [(0:ℝ), 0, 0, 1, 1] = Real.sqrt (3/10) := by
  unfold sampleStd
  simp only [listMean_rmse5, List.map_cons, List.map_nil, List.sum_cons, List.sum_nil,
    List.length_cons, List.length_nil]
  norm_num

/-- The code's std (`√(6/25)`) differs from the sample std (`√(3/10)`). -/
theorem npStd_ne_sampleStd5 : Real.sqrt (6/25) ≠ Real.sqrt (3/10) := by
  intro h
  have h1 : (6/25 : ℝ) = 3/10 := by
    calc (6/25 : ℝ) = Real.sqrt (6/25) ^ 2 := (Real.sq_sqrt (by norm_num : (0:ℝ) ≤ 6/25)).symm
      _ = Real.sqrt (3/10) ^ 2 := by rw [h]
      _ = 3/10 := Real.sq_sqrt (by norm_num : (0:ℝ) ≤ 3/10)
  norm_num at h1

/-- `evaluate_models` on `model5`: means `2/5`, stds `√(6/25)`. -/
theorem eval_model5 : model5.evaluateModels =
    .ok ⟨5, 2/5, 2/5, Real.sqrt (6/25), Real.sqrt (6/25)⟩ := by
  have h1 : model5.evaluateModels =
      Except.bind (crossValNegRmse coords5 ups5 1 false) (fun us =>
        Except.bind (crossValNegRmse coords5 ups5 1 false) (fun ds =>
          Except.ok (⟨5, -(listMean us), -(listMean ds), npStd us, npStd ds⟩ : EvalReport))) :=
    rfl
  rw [h1, crossVal5]
  show Except.ok (⟨5, -(listMean [0, 0, 0, -1, -1]), -(listMean [0, 0, 0, -1, -1]),
      npStd [0, 0, 0, -1, -1], npStd [0, 0, 0, -1, -1]⟩ : EvalReport) =
    .ok ⟨5, 2/5, 2/5, Real.sqrt (6/25), Real.sqrt (6/25)⟩
  rw [listMean_scores5, npStd_scores5]
  norm_num

/-- C5 counterexample: on the constructed `model5`, the five upload fold
RMSE values are `[0, 0, 0, 1, 1]`; the report's std field is
`numpy.std = √(6/25)` (population, ddof 0), while the sample standard
deviation of those RMSE values is `√(3/10)` — the two differ, so the
claimed "sample standard deviation" is wrong. -/
theorem evaluate_std_not_sample_counterexample :
    mkModel (List.range 5) locs5 1 false false (1/5) = .ok model5 ∧
    model5.evaluateModels = .ok ⟨5, 2/5, 2/5, Real.sqrt (6/25), Real.sqrt (6/25)⟩ ∧
    crossValNegRmse (evalCoords model5) (model5.locations.map Location.upload) 1 false =
      .ok [0, 0, 0, -1, -1] ∧
    [(0:ℝ), 0, 0, 1, 1] = ([(0:ℝ), 0, 0, -1, -1]).map (fun s => -s) ∧
    sampleStd [(0:ℝ), 0, 0, 1, 1] = Real.sqrt (3/10) ∧
    Real.sqrt (6/25) ≠ Real.sqrt (3/10) :=
  ⟨mkModel5, eval_model5, crossVal5, by simp, sampleStd_rmse5, npStd_ne_sampleStd5⟩

/-- Sums of nonpositive reals are nonpositive. -/
theorem listSum_nonpos : ∀ xs : List ℝ, (∀ x ∈ xs, x ≤ 0) → xs.sum ≤ 0
  | [], _ => by simp
  | a :: l, h => by
    simp only [List.sum_cons]
    have ha := h a (by simp)
    have hl := listSum_nonpos l fun x hx => h x (by simp [hx])
    linarith

/-- Lists of nonpositive reals have nonpositive mean. -/
theorem listMean_nonpos (xs : List ℝ) (h : ∀ x ∈ xs, x ≤ 0) : listMean xs ≤ 0 := by
  unfold listMean
  exact div_nonpos_iff.mpr (Or.inr ⟨listSum_nonpos xs h, Nat.cast_nonneg _⟩)

/-- Every fold score is a negated RMSE, hence nonpositive. -/
theorem foldScore_nonpos (X : List Point) (y : List ℝ) (k : ℕ) (uh : Bool) (n i : ℕ) :
    foldScore X y k uh n i ≤ 0 := by
  unfold foldScore
  simp only [neg_nonpos]
  exact Real.sqrt_nonneg _

/-- C5 amended: `evaluate()` runs 5-fold cross-validation over the full
input dataset independently for the upload and the download models with
RMSE scoring; the report's `sample_count` equals the input location
count, the RMSE means are non-negative, and the std fields are the
*population* standard deviation (`numpy.std`, ddof 0) of the five fold
scores, not the sample standard deviation. -/
theorem evaluate_report_spec (m : Model) (r : EvalReport)
    (h : m.evaluateModels = .ok r) :
    r.nSamples = m.locations.length ∧ 0 ≤ r.uploadRmse ∧ 0 ≤ r.downloadRmse ∧
    ∃ us ds : List ℝ,
      crossValNegRmse (evalCoords m) (m.locations.map Location.upload)
        m.nNeighbors m.useHaversine = .ok us ∧
      crossValNegRmse (evalCoords m) (m.locations.map Location.download)
        m.nNeighbors m.useHaversine = .ok ds ∧
      us = (List.range 5).map
        (foldScore (evalCoords m) (m.locations.map Location.upload)
          m.nNeighbors m.useHaversine (evalCoords m).length) ∧
      ds = (List.range 5).map
        (foldScore (evalCoords m) (m.locations.map Location.download)
          m.nNeighbors m.useHaversine (evalCoords m).length) ∧
      r.uploadRmse = -(listMean us) ∧ r.downloadRmse = -(listMean ds) ∧
      r.uploadRmseStd = npStd us ∧ r.downloadRmseStd = npStd ds := by
  simp only [Model.evaluateModels] at h
  cases hu : crossValNegRmse (evalCoords m) (m.locations.map Location.upload)
      m.nNeighbors m.useHaversine with
  | error e =>
    rw [hu] at h
    exact Except.noConfusion (h : (Except.error e : Except KnnError EvalReport) = .ok r)
  | ok us =>
    cases hd : crossValNegRmse (evalCoords m) (m.locations.map Location.download)
        m.nNeighbors m.useHaversine with
    | error e =>
      rw [hu, hd] at h
      exact Except.noConfusion (h : (Except.error e : Except KnnError EvalReport) = .ok r)
    | ok ds =>
      rw [hu, hd] at h
      have h2 : Except.ok (⟨m.locations.length, -(listMean us), -(listMean ds),
          npStd us, npStd ds⟩ : EvalReport) = .ok r := h
      obtain rfl := Except.ok.inj h2
      have husEq : us = (List.range 5).map
          (foldScore (evalCoords m) (m.locations.map Location.upload)
            m.nNeighbors m.useHaversine (evalCoords m).length) := by
        unfold crossValNegRmse at hu
        split at hu
        · cases hu
        · split at hu
          · exact (Except.ok.inj hu).symm
          · cases hu
      have hdsEq : ds = (List.range 5).map
          (foldScore (evalCoords m) (m.locations.map Location.download)
            m.nNeighbors m.useHaversine (evalCoords m).length) := by
        unfold crossValNegRmse at hd
        split at hd
        · cases hd
        · split at hd
          · exact (Except.ok.inj hd).symm
          · cases hd
      have hup : 0 ≤ -(listMean us) := by
        have hle : listMean us ≤ 0 := listMean_nonpos us (by
          intro x hx
          rw [husEq] at hx
          obtain ⟨i, -, rfl⟩ := List.mem_map.mp hx
          exact foldScore_nonpos _ _ _ _ _ _)
        linarith
      have hdown : 0 ≤ -(listMean ds) := by
        have hle : listMean ds ≤ 0 := listMean_nonpos ds (by
          intro x hx
          rw [hdsEq] at hx
          obtain ⟨i, -, rfl⟩ := List.mem_map.mp hx
          exact foldScore_nonpos _ _ _ _ _ _)
        linarith
      exact ⟨rfl, hup, hdown, us, ds, rfl, rfl, husEq, hdsEq, rfl, rfl, rfl, rfl⟩

/-- Witness for C5's amended claim at the concrete `model5`. -/
theorem evaluate_report_spec_witness :
    model5.evaluateModels =
      .ok (⟨5, 2/5, 2/5, Real.sqrt (6/25), Real.sqrt (6/25)⟩ : EvalReport) ∧
    ((⟨5, 2/5, 2/5, Real.sqrt (6/25), Real.sqrt (6/25)⟩ : EvalReport).nSamples =
        model5.locations.length ∧
      0 ≤ (⟨5, 2/5, 2/5, Real.sqrt (6/25), Real.sqrt (6/25)⟩ : EvalReport).uploadRmse ∧
      0 ≤ (⟨5, 2/5, 2/5, Real.sqrt (6/25), Real.sqrt (6/25)⟩ : EvalReport).downloadRmse ∧
      ∃ us ds : List ℝ,
        crossValNegRmse (evalCoords model5) (model5.locations.map Location.upload)
          model5.nNeighbors model5.useHaversine = .ok us ∧
        crossValNegRmse (evalCoords model5) (model5.locations.map Location.download)
          model5.nNeighbors model5.useHaversine = .ok ds ∧
        us = (List.range 5).map
          (foldScore (evalCoords model5) (model5.locations.map Location.upload)
            model5.nNeighbors model5.useHaversine (evalCoords model5).length) ∧
        ds = (List.range 5).map
          (foldScore (evalCoords model5) (model5.locations.map Location.download)
            model5.nNeighbors model5.useHaversine (evalCoords model5).length) ∧
        (⟨5, 2/5, 2/5, Real.sqrt (6/25), Real.sqrt (6/25)⟩ : EvalReport).uploadRmse =
          -(listMean us) ∧
        (⟨5, 2/5, 2/5, Real.sqrt (6/25), Real.sqrt (6/25)⟩ : EvalReport).downloadRmse =
          -(listMean ds) ∧
        (⟨5, 2/5, 2/5, Real.sqrt (6/25), Real.sqrt (6/25)⟩ : EvalReport).uploadRmseStd =
          npStd us ∧
        (⟨5, 2/5, 2/5, Real.sqrt (6/25), Real.sqrt (6/25)⟩ : EvalReport).downloadRmseStd =
          npStd ds) :=
  ⟨eval_model5,
    evaluate_report_spec model5 ⟨5, 2/5, 2/5, Real.sqrt (6/25), Real.sqrt (6/25)⟩ eval_model5⟩
